import Mathlib

/-! Verification of the real-time duplex audio pipeline of the repository
(LiveMode playback scheduler, capture pipeline, transport adapter,
TTSMode render pipeline and WAV writer).

Times and sample values are modelled as rationals (the source uses JS
numbers for clock times, durations and float samples); byte buffers as
lists of naturals below 256.
-/

namespace Pipeline

/-! Playback scheduler state (LiveMode, src/unnamed/part_000).

The component keeps refs: `nextStartTimeRef` (the playback cursor),
`sourcesRef` (a `Set<AudioBufferSourceNode>`, modelled as an
insertion-ordered list), the React flags `connected` / `speaking` /
`aiSpeaking`, and nullable refs for the microphone stream, the script
processor, the media-stream source node, the two audio contexts and the
session (modelled as Booleans: `true` = non-null). `stoppedSources`
records every source on which `.stop()` has been called. -/

structure AudioSource where
  startTime : ℚ
  duration : ℚ
  deriving DecidableEq, Repr

structure LiveState where
  nextStartTime : ℚ
  activeSources : List AudioSource
  stoppedSources : List AudioSource
  aiSpeaking : Bool
  connected : Bool
  speaking : Bool
  stream : Bool
  processor : Bool
  sourceNode : Bool
  inputCtx : Bool
  outputCtx : Bool
  session : Bool
  deriving DecidableEq, Repr

/-- The initial component state: all refs null, cursor 0, empty set. -/
def LiveState.init : LiveState :=
  { nextStartTime := 0, activeSources := [], stoppedSources := []
    aiSpeaking := false, connected := false, speaking := false
    stream := false, processor := false, sourceNode := false
    inputCtx := false, outputCtx := false, session := false }

/-- The audio branch of the `onmessage` handler (part_000 lines 135-160),
run to completion for one inbound chunk of decoded duration `d` while the
output clock reads `now`: set `aiSpeaking`, resynchronise the cursor to
`max(nextStartTime, outputCtx.currentTime)`, start a source at the cursor,
advance the cursor by the buffer duration and add the source to the set.
Returns the new state and the source that was scheduled. -/
def handleAudioChunk (now d : ℚ) (st : LiveState) : LiveState × AudioSource :=
  let cursor := max st.nextStartTime now
  let src : AudioSource := { startTime := cursor, duration := d }
  ({ st with aiSpeaking := true
             nextStartTime := cursor + d
             activeSources := st.activeSources ++ [src] }, src)

/-- The interruption branch of the `onmessage` handler (part_000 lines
163-171): `.stop()` every source in the set, clear the set, reset the
cursor to 0 and drop the `aiSpeaking` flag. -/
def handleInterrupted (st : LiveState) : LiveState :=
  { st with stoppedSources := st.stoppedSources ++ st.activeSources
            activeSources := []
            nextStartTime := 0
            aiSpeaking := false }

/-- Full teardown `stopAll` (part_000 lines 26-68): stop the microphone tracks and null
the stream, disconnect and null the processor and source node, close and
null the input context, `.stop()` every playback source and clear the set,
close and null the output context, null the session and clear the three
flags. The cursor ref is not touched. -/
def stopAll (st : LiveState) : LiveState :=
  { st with stream := false
            processor := false
            sourceNode := false
            inputCtx := false
            stoppedSources := st.stoppedSources ++ st.activeSources
            activeSources := []
            outputCtx := false
            session := false
            connected := false
            speaking := false
            aiSpeaking := false }

/-- Sequential processing of a list of inbound chunk durations, each
handled to completion before the next arrives, with the output clock
reading `now` at every scheduling decision. Also returns the scheduled
sources in arrival order. -/
def runChunks (now : ℚ) (st : LiveState) : List ℚ → LiveState × List AudioSource
  | [] => (st, [])
  | d :: ds =>
    let p := handleAudioChunk now d st
    let q := runChunks now p.1 ds
    (q.1, p.2 :: q.2)

/-- Start times of the successive units, as scheduled by `runChunks`. -/
def scheduledStarts (now : ℚ) (st : LiveState) (ds : List ℚ) : List ℚ :=
  (runChunks now st ds).2.map AudioSource.startTime

/-! Asynchronous interleaving of the message handler.

The handler `onmessage` is an `async` callback: it resynchronises the cursor (line
139), then `await`s `decodeAudioData` (lines 141-146), and only after the
decode resolves does it read the cursor ref again, start the source there
and advance the ref (lines 148-159). Two invocations can therefore
interleave: both run their pre-await part before either decode resolves.
`DecodeEv` records the observable order of these two phases: `arrive i`
is the pre-await part of the handler for chunk `i` (cursor resync, decode
started), `complete i` is the post-await part (schedule at the current
cursor ref, advance it by the decoded duration). -/

inductive DecodeEv where
  | arrive (i : Nat)
  | complete (i : Nat)
  deriving DecidableEq, Repr

structure AsyncState where
  cursor : ℚ
  starts : List (Nat × ℚ)
  deriving DecidableEq, Repr

def AsyncState.init : AsyncState := { cursor := 0, starts := [] }

/-- One phase of one handler invocation, with decoded durations `dur` and
the output clock reading `now`. -/
def asyncStep (dur : Nat → ℚ) (now : ℚ) (st : AsyncState) : DecodeEv → AsyncState
  | .arrive _ => { st with cursor := max st.cursor now }
  | .complete i => { cursor := st.cursor + dur i
                     starts := st.starts ++ [(i, st.cursor)] }

def runEvents (dur : Nat → ℚ) (now : ℚ) (st : AsyncState)
    (evs : List DecodeEv) : AsyncState :=
  evs.foldl (asyncStep dur now) st

/-- Decoded durations for the C3 scenario: chunk 0 lasts 2 s, chunk 1
lasts 1 s. -/
def c3durations : Nat → ℚ := fun i => if i = 0 then 2 else 1

end Pipeline

namespace Wav

/-- Truncation toward zero: the behaviour of the JS `|0` coercion on
values inside int32 range (every value produced here lies in
[-32768, 32767]). -/
def ratTrunc (q : ℚ) : Int := if q < 0 then ⌈q⌉ else ⌊q⌋

/-- Per-sample quantisation of `bufferToWav` (TTSMode.tsx lines 541-542):
clamp to [-1, 1], then evaluate
`(0.5 + sample < 0 ? sample * 32768 : sample * 32767) | 0`.
By JS operator precedence the condition reads `(0.5 + sample) < 0`, so
the 32768 scale applies only to clamped samples below -1/2. -/
def wavSample (s : ℚ) : Int :=
  ratTrunc (if 1/2 + max (-1) (min 1 s) < 0
            then max (-1) (min 1 s) * 32768
            else max (-1) (min 1 s) * 32767)

/-- The 16-bit quantisation as the specification words it: clamp to
[-1, 1], scale a negative clamped sample by 32768 and a non-negative one
by 32767, truncate to integer. Stated only for comparison against
`wavSample`. -/
def wavSampleClaimed (s : ℚ) : Int :=
  ratTrunc (if max (-1) (min 1 s) < 0
            then max (-1) (min 1 s) * 32768
            else max (-1) (min 1 s) * 32767)

/-- Bytes of `DataView.setUint16(_, v, true)`: little-endian. -/
def u16le (v : ℕ) : List ℕ := [v % 256, v / 256 % 256]

/-- Bytes of `DataView.setUint32(_, v, true)`: little-endian. -/
def u32le (v : ℕ) : List ℕ :=
  [v % 256, v / 256 % 256, v / 65536 % 256, v / 16777216 % 256]

/-- Bytes of `DataView.setInt16(_, v, true)`: two's-complement,
little-endian. -/
def i16le (v : Int) : List ℕ := u16le (v % 65536).toNat

/-- The per-channel sample count `abuffer.length`: the length of channel
0's sample array. -/
def numSamples (channels : List (List ℚ)) : ℕ := (channels.headD []).length

/-- The WAV writer `bufferToWav` (TTSMode.tsx lines 510-560).
`channels` is the list of per-channel sample arrays
`abuffer.getChannelData(0) .. getChannelData(numOfChan - 1)`;
`abuffer.length` (per-channel sample count) is the length of channel 0.
The header is written by the successive `setUint32`/`setUint16` calls;
the data section interleaves the channels sample-position first. -/
def bufferToWav (channels : List (List ℚ)) (sampleRate : ℕ) : List ℕ :=
  u32le 0x46464952 ++
  u32le (numSamples channels * channels.length * 2 + 44 - 8) ++
  u32le 0x45564157 ++
  u32le 0x20746d66 ++
  u32le 16 ++
  u16le 1 ++
  u16le channels.length ++
  u32le sampleRate ++
  u32le (sampleRate * 2 * channels.length) ++
  u16le (channels.length * 2) ++
  u16le 16 ++
  u32le 0x61746164 ++
  u32le (numSamples channels * channels.length * 2 + 44 - 40 - 4) ++
  (List.range (numSamples channels)).flatMap
    (fun pos => channels.flatMap (fun ch => i16le (wavSample (ch.getD pos 0))))

/-- Read back a little-endian 16-bit field at byte offset `off`. -/
def readU16 (bs : List ℕ) (off : ℕ) : ℕ :=
  bs.getD off 0 + 256 * bs.getD (off + 1) 0

/-- Read back a little-endian 32-bit field at byte offset `off`. -/
def readU32 (bs : List ℕ) (off : ℕ) : ℕ :=
  bs.getD off 0 + 256 * bs.getD (off + 1) 0 +
  65536 * bs.getD (off + 2) 0 + 16777216 * bs.getD (off + 3) 0

end Wav

namespace Capture

/-- Modelled from the spec: `createPcmBlob` lives in
`src/utils/audioUtils`, which is not part of the source tree; per
specification section 4.1, `encodePCM16` clamps each sample to [-1, 1],
scales by 32767 (positive) or 32768 (negative), truncates to integer and
writes little-endian. We model the per-sample quantisation; the byte
serialisation is as in `Wav.i16le`. -/
def createPcmBlob (frame : List ℚ) : List Int :=
  frame.map (fun s =>
    Wav.ratTrunc (if max (-1) (min 1 s) < 0
                  then max (-1) (min 1 s) * 32768
                  else max (-1) (min 1 s) * 32767))

/-- The activity signal of `onaudioprocess` (part_000 lines 113-117):
`rms > 0.02` where `rms = sqrt(sum of squares / length)`. Both sides of
the comparison are non-negative, so it is equivalent to comparing the
mean square against 0.02^2 = 4/10000, which avoids the square root. -/
def speakingSignal (frame : List ℚ) : Bool :=
  decide ((4 : ℚ) / 10000 < (frame.map (fun x => x * x)).sum / (frame.length : ℚ))

/-- Result of one capture callback: the activity flag passed to
`setSpeaking` and the encoded chunk handed to the transport. -/
structure CaptureOut where
  speaking : Bool
  sent : List Int
  deriving DecidableEq, Repr

/-- The `onaudioprocess` handler (part_000 lines 110-124) for one frame:
compute the RMS activity flag, then encode the frame with `createPcmBlob`
and hand it to the session promise — straight-line code with no branch on
the activity flag. -/
def onaudioprocess (frame : List ℚ) : CaptureOut :=
  { speaking := speakingSignal frame
    sent := createPcmBlob frame }

/-- Process a stream of frames, collecting the chunks handed to the
transport in arrival order. -/
def processFrames (frames : List (List ℚ)) : List (List Int) :=
  frames.map (fun f => (onaudioprocess f).sent)

end Capture

namespace Transport

/-- State of the one-shot session handle (part_000 lines 92-94): the
promise `sessionPromise`, its registered-but-unrun reactions in
registration order (`pending`), and the chunks forwarded to the resolved
session in forwarding order (`delivered`). -/
structure TState (α : Type) where
  resolved : Bool
  pending : List α
  delivered : List α
  deriving DecidableEq, Repr

def TState.init (α : Type) : TState α :=
  { resolved := false, pending := [], delivered := [] }

/-- A transport event: `send c` is one
`sessionPromise.then(session => session.sendRealtimeInput(...))` call
from the capture callback (part_000 lines 121-123); `resolve` is
`resolveSession(session)` after the connection promise settles
(line 194). -/
inductive TEv (α : Type) where
  | send (chunk : α)
  | resolve
  deriving DecidableEq, Repr

/-- JS promise semantics for the code's single session promise: a `then`
reaction registered before resolution is queued in registration order and
runs when the promise resolves; one registered after resolution runs at
once; a promise resolves at most once. If `resolve` never occurs the
queued reactions never run and their chunks are never forwarded. -/
def tStep {α : Type} (st : TState α) : TEv α → TState α
  | .send c =>
    if st.resolved then { st with delivered := st.delivered ++ [c] }
    else { st with pending := st.pending ++ [c] }
  | .resolve =>
    if st.resolved then st
    else { resolved := true, pending := [], delivered := st.delivered ++ st.pending }

def tRun {α : Type} (st : TState α) (evs : List (TEv α)) : TState α :=
  evs.foldl tStep st

end Transport

namespace Render

/-- The `SALanguage` enum (types.ts). -/
inductive SALanguage
  | english | zulu | xhosa | afrikaans | sesotho | setswana
  deriving DecidableEq, Repr

/-- An `OfflinePack` record (types.ts). -/
structure OfflinePack where
  id : String
  language : SALanguage
  localeCode : String
  size : String
  downloaded : Bool
  deriving DecidableEq, Repr

/-- `INITIAL_OFFLINE_PACKS` (types.ts): only the English pack starts
downloaded. -/
def initialOfflinePacks : List OfflinePack :=
  [ { id := "pack_en", language := .english, localeCode := "en-ZA",
      size := "45 MB", downloaded := true },
    { id := "pack_af", language := .afrikaans, localeCode := "af-ZA",
      size := "38 MB", downloaded := false },
    { id := "pack_zu", language := .zulu, localeCode := "zu-ZA",
      size := "42 MB", downloaded := false },
    { id := "pack_xh", language := .xhosa, localeCode := "xh-ZA",
      size := "40 MB", downloaded := false },
    { id := "pack_st", language := .sesotho, localeCode := "st-ZA",
      size := "35 MB", downloaded := false },
    { id := "pack_tn", language := .setswana, localeCode := "tn-ZA",
      size := "36 MB", downloaded := false } ]

/-- Errors surfaced by the render pipeline. `packNotAvailable` is the
`Please download the ... language pack first.` throw (TTSMode.tsx lines
116-118). -/
inductive GenError
  | packNotAvailable
  | synthesisFailed
  deriving DecidableEq, Repr

/-- The React state of the render pipeline relevant to generation and
playback: `loading`, `error`, `audioUrl`, `isPlaying`. -/
structure RState where
  loading : Bool
  error : Option GenError
  audioUrl : Option String
  isPlaying : Bool
  deriving DecidableEq, Repr

def RState.init : RState :=
  { loading := false, error := none, audioUrl := none, isPlaying := false }

/-- JS `String.prototype.trim` on the character list of the input text:
strip leading and trailing whitespace. The guard in `handleGenerate`
(line 90) is `if (!inputText.trim()) return` — blank means the trimmed
text is empty. -/
def trimChars (text : List Char) : List Char :=
  (((text.dropWhile Char.isWhitespace).reverse).dropWhile Char.isWhitespace).reverse

/-- Result of one offline `handleGenerate` call: the settled state, and
whether `window.speechSynthesis.speak` / `.cancel` were invoked. -/
structure OfflineGenResult where
  state : RState
  speakCalled : Bool
  cancelCalled : Bool
  deriving DecidableEq, Repr

/-- The offline path of `handleGenerate` (TTSMode.tsx lines 89-146), run
to quiescence. Blank input returns immediately. Otherwise the handler
sets `loading`, clears `error` and `audioUrl`, sets `isPlaying`, cancels
any current browser speech, then `handleOfflineGenerate` looks the
selected language up in `offlinePacks`; a pack with `downloaded = false`
throws before any `speak` call, which the catch block turns into
`setError` + `setIsPlaying(false)` and the finally block into
`setLoading(false)`. Otherwise the utterance is spoken and its `onend`
resolves the promise, after which loading and playing are cleared. -/
def handleGenerateOffline (packs : List OfflinePack) (lang : SALanguage)
    (inputText : List Char) (st : RState) : OfflineGenResult :=
  if trimChars inputText = [] then
    { state := st, speakCalled := false, cancelCalled := false }
  else
    let st1 : RState :=
      { st with loading := true, error := none, audioUrl := none, isPlaying := true }
    match packs.find? (fun p => p.language == lang) with
    | some pack =>
      if pack.downloaded then
        { state := { st1 with loading := false, isPlaying := false }
          speakCalled := true, cancelCalled := true }
      else
        { state := { st1 with error := some GenError.packNotAvailable
                              isPlaying := false
                              loading := false }
          speakCalled := false, cancelCalled := true }
    | none =>
        { state := { st1 with loading := false, isPlaying := false }
          speakCalled := true, cancelCalled := true }

/-- The render phase abstraction as the UI presents it (TTSMode.tsx lines
433-453): the Stop control is rendered while `isPlaying`; otherwise the
generate control, disabled and in its loading form while `loading`; the
error banner shows when `error` is set. -/
inductive RenderPhase
  | idle | generating | playing | error
  deriving DecidableEq, Repr

def phase (st : RState) : RenderPhase :=
  if st.isPlaying then .playing
  else if st.loading then .generating
  else if st.error.isSome then .error
  else .idle

/-- The `<audio>` element sink: paused flag and `currentTime`. -/
structure Player where
  paused : Bool
  position : ℚ
  deriving DecidableEq, Repr

/-- Result of `stopPlayback`: the sink, the React state and whether
`window.speechSynthesis.cancel` ran. -/
structure StopResult where
  player : Option Player
  state : RState
  cancelCalled : Bool
  deriving DecidableEq, Repr

/-- `stopPlayback` (TTSMode.tsx lines 205-212): when the audio element
exists, pause it and reset `currentTime` to 0; cancel any local
utterance; clear `isPlaying`. It touches neither `loading` nor `error`
nor `audioUrl`. -/
def stopPlayback (player : Option Player) (st : RState) : StopResult :=
  { player := player.map (fun p => { p with paused := true, position := 0 })
    state := { st with isPlaying := false }
    cancelCalled := true }

end Render

namespace Pipeline

lemma runChunks_cursor_and_starts (ds : List ℚ) (st : LiveState)
    (h0 : 0 ≤ st.nextStartTime) (hd : ∀ d ∈ ds, 0 ≤ d) :
    (runChunks 0 st ds).1.nextStartTime = st.nextStartTime + ds.sum ∧
    scheduledStarts 0 st ds =
      (List.range ds.length).map (fun k => st.nextStartTime + (ds.take k).sum) := by
  induction ds generalizing st with
  | nil => simp [runChunks, scheduledStarts]
  | cons d ds ih =>
    have hd0 : 0 ≤ d := hd d (List.mem_cons_self d ds)
    have hcursor : max st.nextStartTime 0 = st.nextStartTime := max_eq_left h0
    have hst1 : (handleAudioChunk 0 d st).1.nextStartTime = st.nextStartTime + d := by
      simp [handleAudioChunk, hcursor]
    have h1 : 0 ≤ (handleAudioChunk 0 d st).1.nextStartTime := by
      rw [hst1]; positivity
    have ihs := ih (handleAudioChunk 0 d st).1 h1
      (fun x hx => hd x (List.mem_cons_of_mem d hx))
    constructor
    · show (runChunks 0 (handleAudioChunk 0 d st).1 ds).1.nextStartTime = _
      rw [ihs.1, hst1]
      simp [List.sum_cons]
      ring
    · show ((handleAudioChunk 0 d st).2 ::
          (runChunks 0 (handleAudioChunk 0 d st).1 ds).2).map AudioSource.startTime = _
      have hsrc : (handleAudioChunk 0 d st).2.startTime = st.nextStartTime := by
        simp [handleAudioChunk, hcursor]
      rw [List.map_cons, hsrc]
      have := ihs.2
      rw [scheduledStarts] at this
      rw [this, List.length_cons, List.range_succ_eq_map, List.map_cons, List.map_map]
      congr 1
      · simp
      · rw [hst1]
        apply List.map_congr_left
        intro k _
        simp [List.sum_cons]
        ring

end Pipeline

/-- C1: starting from `nextStartTime = 0` with the output clock at 0 and no
intervening interruption, the k-th unit scheduled by the message handler
starts at the sum of the durations of the earlier units, and after all
units the cursor equals the sum of all durations (back-to-back playback).
-/
theorem C1_gapless_schedule (ds : List ℚ) (st : Pipeline.LiveState)
    (h0 : st.nextStartTime = 0) (hd : ∀ d ∈ ds, 0 ≤ d) :
    (Pipeline.runChunks 0 st ds).1.nextStartTime = ds.sum ∧
    ∀ k, k < ds.length →
      (Pipeline.scheduledStarts 0 st ds).getD k 0 = (ds.take k).sum := by
  have h := Pipeline.runChunks_cursor_and_starts ds st (by rw [h0]) hd
  constructor
  · rw [h.1, h0, zero_add]
  · intro k hk
    rw [h.2, h0]
    rw [List.getD_eq_getElem?_getD, List.getElem?_map]
    simp [List.getElem?_range hk]

/-- Witness for C1: two chunks of duration 1/2 each, from the initial
state: the second unit starts at 1/2 and the final cursor is 1. -/
theorem C1_gapless_schedule_witness :
    (Pipeline.runChunks 0 Pipeline.LiveState.init [1/2, 1/2]).1.nextStartTime = 1 ∧
    (Pipeline.scheduledStarts 0 Pipeline.LiveState.init [1/2, 1/2]).getD 1 0 = 1/2 := by
  have h := C1_gapless_schedule [1/2, 1/2] Pipeline.LiveState.init rfl
    (by intro d hd; rcases List.mem_cons.mp hd with h | h
        · rw [h]; norm_num
        · simp at h; rw [h]; norm_num)
  constructor
  · rw [h.1]; norm_num
  · rw [h.2 1 (by norm_num)]; norm_num

/-- C2: after the interruption branch runs, every previously scheduled or
playing unit has been stopped, the active-source set is empty, the cursor
is reset to 0 and the assistant-finished-speaking signal is emitted. -/
theorem C2_interrupt_clears (st : Pipeline.LiveState) :
    (Pipeline.handleInterrupted st).activeSources = [] ∧
    (Pipeline.handleInterrupted st).nextStartTime = 0 ∧
    (Pipeline.handleInterrupted st).aiSpeaking = false ∧
    ∀ s ∈ st.activeSources, s ∈ (Pipeline.handleInterrupted st).stoppedSources := by
  refine ⟨rfl, rfl, rfl, ?_⟩
  intro s hs
  simp [Pipeline.handleInterrupted]
  exact Or.inr hs

/-- Witness for C2: a state with one active unit. -/
theorem C2_interrupt_clears_witness :
    (Pipeline.handleInterrupted
      { Pipeline.LiveState.init with
          activeSources := [{ startTime := 0, duration := 1 }] }).activeSources = [] ∧
    ({ startTime := 0, duration := 1 } : Pipeline.AudioSource) ∈
      (Pipeline.handleInterrupted
        { Pipeline.LiveState.init with
            activeSources := [{ startTime := 0, duration := 1 }] }).stoppedSources := by
  have h := C2_interrupt_clears
    { Pipeline.LiveState.init with
        activeSources := [{ startTime := 0, duration := 1 }] }
  exact ⟨h.1, h.2.2.2 _ (by simp)⟩

/-- C3 fails on the code: with chunk 0 (duration 2 s) arriving before
chunk 1 (duration 1 s), the clock at 0 and chunk 1's decode resolving
first, the handler schedules chunk 1 at cursor 0 and chunk 0 at cursor 1:
scheduling follows decode-completion order, and the earlier-arriving
chunk 0 is scheduled at the strictly later cursor position, contradicting
the claim. The cursor is only advanced in the post-await phase, so both
invocations read cursor 0 until one of them completes. -/
theorem C3_decode_completion_order_counterexample :
    (Pipeline.runEvents Pipeline.c3durations 0 Pipeline.AsyncState.init
      [.arrive 0, .arrive 1, .complete 1, .complete 0]).starts = [(1, 0), (0, 1)] ∧
    ((Pipeline.runEvents Pipeline.c3durations 0 Pipeline.AsyncState.init
      [.arrive 0, .arrive 1, .complete 1, .complete 0]).starts.lookup 1).getD 0 <
    ((Pipeline.runEvents Pipeline.c3durations 0 Pipeline.AsyncState.init
      [.arrive 0, .arrive 1, .complete 1, .complete 0]).starts.lookup 0).getD 0 := by
  refine ⟨?_, ?_⟩ <;>
    simp [Pipeline.runEvents, Pipeline.asyncStep, Pipeline.AsyncState.init,
      Pipeline.c3durations, List.foldl, List.lookup]

/-- C10: full teardown clears the microphone stream, processor, source
node, both audio contexts, the session, the active-source set and the
connected/speaking/aiSpeaking flags, but leaves `nextStartTime` at its
previous value; a chunk handled afterwards is scheduled at
`max(nextStartTime, clock.now())`, hence never in the past. -/
theorem C10_stopAll_keeps_cursor (st : Pipeline.LiveState) (now d : ℚ) :
    (Pipeline.stopAll st).nextStartTime = st.nextStartTime ∧
    (Pipeline.stopAll st).stream = false ∧
    (Pipeline.stopAll st).processor = false ∧
    (Pipeline.stopAll st).sourceNode = false ∧
    (Pipeline.stopAll st).inputCtx = false ∧
    (Pipeline.stopAll st).outputCtx = false ∧
    (Pipeline.stopAll st).session = false ∧
    (Pipeline.stopAll st).activeSources = [] ∧
    (Pipeline.stopAll st).connected = false ∧
    (Pipeline.stopAll st).speaking = false ∧
    (Pipeline.stopAll st).aiSpeaking = false ∧
    (Pipeline.handleAudioChunk now d (Pipeline.stopAll st)).2.startTime
      = max st.nextStartTime now ∧
    now ≤ (Pipeline.handleAudioChunk now d (Pipeline.stopAll st)).2.startTime := by
  refine ⟨rfl, rfl, rfl, rfl, rfl, rfl, rfl, rfl, rfl, rfl, rfl, rfl, ?_⟩
  exact le_max_right _ _

namespace Transport

lemma tRun_cons {α : Type} (st : TState α) (e : TEv α) (evs : List (TEv α)) :
    tRun st (e :: evs) = tRun (tStep st e) evs := rfl

lemma tRun_sends_unresolved {α : Type} (cs : List α) (st : TState α)
    (h : st.resolved = false) :
    tRun st (cs.map TEv.send) = { st with pending := st.pending ++ cs } := by
  induction cs generalizing st with
  | nil => simp [tRun]
  | cons c cs ih =>
    rw [List.map_cons, tRun_cons, tStep, h]
    simp only [Bool.false_eq_true, if_false]
    rw [ih _ (by simp [h])]
    simp

lemma tRun_sends_resolved {α : Type} (cs : List α) (st : TState α)
    (h : st.resolved = true) :
    tRun st (cs.map TEv.send) = { st with delivered := st.delivered ++ cs } := by
  induction cs generalizing st with
  | nil => simp [tRun]
  | cons c cs ih =>
    rw [List.map_cons, tRun_cons, tStep, h]
    simp only [if_true]
    rw [ih _ (by simp [h])]
    simp

end Transport

/-- C6: every chunk sent before the session handle resolves is deferred
and forwarded at resolution, none dropped and none reordered, followed in
order by the chunks sent after resolution, which forward immediately; and
when the handle never resolves no chunk is ever forwarded (silently
dropped, the unrun reactions merely sit on the promise). -/
theorem C6_handshake_send_ordering (α : Type) (pre post : List α) :
    (Transport.tRun (Transport.TState.init α)
      (pre.map Transport.TEv.send ++
        Transport.TEv.resolve :: post.map Transport.TEv.send)).delivered
      = pre ++ post ∧
    (Transport.tRun (Transport.TState.init α) (pre.map Transport.TEv.send)).delivered
      = [] ∧
    (Transport.tRun (Transport.TState.init α) (pre.map Transport.TEv.send)).pending
      = pre := by
  have hpre := Transport.tRun_sends_unresolved pre (Transport.TState.init α) rfl
  refine ⟨?_, ?_, ?_⟩
  · rw [Transport.tRun, List.foldl_append]
    rw [show List.foldl Transport.tStep (Transport.TState.init α)
          (pre.map Transport.TEv.send)
        = Transport.tRun (Transport.TState.init α) (pre.map Transport.TEv.send) from rfl]
    rw [hpre]
    rw [show List.foldl Transport.tStep _ (Transport.TEv.resolve :: _)
        = Transport.tRun (Transport.tStep { Transport.TState.init α with
            pending := (Transport.TState.init α).pending ++ pre } Transport.TEv.resolve)
            (post.map Transport.TEv.send) from rfl]
    rw [show Transport.tStep { Transport.TState.init α with
          pending := (Transport.TState.init α).pending ++ pre } Transport.TEv.resolve
        = { resolved := true, pending := [], delivered := pre } by
          simp [Transport.tStep, Transport.TState.init]]
    rw [Transport.tRun_sends_resolved post _ rfl]
  · rw [hpre]; rfl
  · rw [hpre]; rfl

/-- C7: the capture callback hands every frame, encoded, to the transport:
over any stream of frames the sent chunks are exactly the encodings of
all frames in arrival order, and each frame's chunk encodes all of its
samples — the RMS activity flag never suppresses a frame. -/
theorem C7_every_frame_sent (frames : List (List ℚ)) (frame : List ℚ) :
    Capture.processFrames frames = frames.map Capture.createPcmBlob ∧
    (Capture.onaudioprocess frame).sent = Capture.createPcmBlob frame ∧
    (Capture.onaudioprocess frame).sent.length = frame.length := by
  refine ⟨rfl, rfl, ?_⟩
  simp [Capture.onaudioprocess, Capture.createPcmBlob]

/-- C8 fails on the code: an offline generate for Afrikaans (pack not
downloaded) starting from a state holding a previously generated audio
URL leaves a different observable state — `setAudioUrl(null)` ran before
the pack check, so the old URL is gone (and the error field now holds the
failure). The claim that observable state is unchanged is false. -/
theorem C8_state_change_counterexample :
    (Render.handleGenerateOffline Render.initialOfflinePacks
      Render.SALanguage.afrikaans ['h', 'e', 'l', 'l', 'o']
      { loading := false, error := none, audioUrl := some "u", isPlaying := false }).state ≠
    { loading := false, error := none, audioUrl := some "u", isPlaying := false } := by
  decide

/-- C8 amended: an offline generate for a language whose pack has
`downloaded = false` fails with the pack-not-available error before any
synthesis attempt (the local synthesizer is never invoked); the failed
call is not state-neutral: it records the error, clears any previously
generated audio URL, and settles with `loading` and `isPlaying` false. -/
theorem C8_pack_missing_fails_before_synthesis
    (packs : List Render.OfflinePack) (lang : Render.SALanguage)
    (text : List Char) (st : Render.RState) (pack : Render.OfflinePack)
    (hfind : packs.find? (fun p => p.language == lang) = some pack)
    (hdl : pack.downloaded = false)
    (ht : ¬ Render.trimChars text = []) :
    (Render.handleGenerateOffline packs lang text st).speakCalled = false ∧
    (Render.handleGenerateOffline packs lang text st).state.error =
      some Render.GenError.packNotAvailable ∧
    (Render.handleGenerateOffline packs lang text st).state.audioUrl = none ∧
    (Render.handleGenerateOffline packs lang text st).state.loading = false ∧
    (Render.handleGenerateOffline packs lang text st).state.isPlaying = false := by
  simp [Render.handleGenerateOffline, ht, hfind, hdl]

/-- Witness for C8 amended: Afrikaans with the initial packs, non-blank
text, from the initial state. -/
theorem C8_pack_missing_fails_before_synthesis_witness :
    (Render.handleGenerateOffline Render.initialOfflinePacks
      Render.SALanguage.afrikaans ['h', 'i'] Render.RState.init).speakCalled = false ∧
    (Render.handleGenerateOffline Render.initialOfflinePacks
      Render.SALanguage.afrikaans ['h', 'i'] Render.RState.init).state.error =
      some Render.GenError.packNotAvailable := by
  have h := C8_pack_missing_fails_before_synthesis Render.initialOfflinePacks
    Render.SALanguage.afrikaans ['h', 'i'] Render.RState.init
    { id := "pack_af", language := .afrikaans, localeCode := "af-ZA",
      size := "38 MB", downloaded := false }
    (by decide) rfl (by decide)
  exact ⟨h.1, h.2.1⟩

/-- C9 fails on the code: from a state where a generation is in flight
and playing (`loading` and `isPlaying` both true — exactly the state
`handleGenerate` enters while awaiting synthesis, presented as Playing by
the UI), `stopPlayback` clears only `isPlaying`; `loading` survives, so
the render state is Generating afterwards, not Idle. -/
theorem C9_stop_not_idle_counterexample :
    Render.phase
      { loading := true, error := none, audioUrl := none, isPlaying := true } =
      Render.RenderPhase.playing ∧
    Render.phase (Render.stopPlayback none
      { loading := true, error := none, audioUrl := none, isPlaying := true }).state ≠
      Render.RenderPhase.idle := by
  decide

/-- C9 amended: `stopPlayback` halts the sink (pause plus position reset)
and cancels the local utterance, and clears `isPlaying` unconditionally;
the state becomes Idle whenever no generation is in flight and no error
is recorded, but while `loading` is set the state remains Generating —
stop does not reset an in-flight generation. -/
theorem C9_stop_halts_playback (player : Option Render.Player) (st : Render.RState) :
    (Render.stopPlayback player st).state.isPlaying = false ∧
    (Render.stopPlayback player st).cancelCalled = true ∧
    (∀ p, player = some p →
      (Render.stopPlayback player st).player = some { paused := true, position := 0 }) ∧
    (st.loading = false → st.error = none →
      Render.phase (Render.stopPlayback player st).state = Render.RenderPhase.idle) ∧
    (st.loading = true →
      Render.phase (Render.stopPlayback player st).state = Render.RenderPhase.generating) := by
  refine ⟨rfl, rfl, ?_, ?_, ?_⟩
  · rintro p rfl
    rfl
  · intro h1 h2
    simp [Render.stopPlayback, Render.phase, h1, h2]
  · intro h1
    simp [Render.stopPlayback, Render.phase, h1]

/-- Witness for C9 amended: stopping from a playing, non-loading state
with a live audio element pauses and rewinds it and lands in Idle. -/
theorem C9_stop_halts_playback_witness :
    (Render.stopPlayback (some { paused := false, position := 5 })
      { loading := false, error := none, audioUrl := some "u", isPlaying := true }).player
      = some { paused := true, position := 0 } ∧
    Render.phase (Render.stopPlayback (some { paused := false, position := 5 })
      { loading := false, error := none, audioUrl := some "u", isPlaying := true }).state
      = Render.RenderPhase.idle := by
  have h := C9_stop_halts_playback (some { paused := false, position := 5 })
    { loading := false, error := none, audioUrl := some "u", isPlaying := true }
  exact ⟨h.2.2.1 _ rfl, h.2.2.2.1 rfl rfl⟩

/-- C4 fails on the code: by JS precedence the scale test in
`bufferToWav` is `(0.5 + sample) < 0`, not `sample < 0`. At sample -1/4
the code scales by 32767 and truncates -8191.75 to -8191, while the
claimed mapping (negative scales by 32768) yields -8192. -/
theorem C4_quantizer_counterexample :
    Wav.wavSample (-(1/4)) ≠ Wav.wavSampleClaimed (-(1/4)) := by
  have h1 : (⌈(-(32767/4) : ℚ)⌉ : ℤ) = -8191 := by
    rw [Int.ceil_eq_iff]; norm_num
  have h2 : (⌈(-8192 : ℚ)⌉ : ℤ) = -8192 := by
    rw [Int.ceil_eq_iff]; norm_num
  norm_num [Wav.wavSample, Wav.wavSampleClaimed, Wav.ratTrunc, h1, h2]

/-- C4 amended: the code clamps each sample to [-1, 1] and truncates
toward zero after scaling, but the scale boundary sits at -1/2, not 0: a
clamped sample below -1/2 is scaled by 32768, one at or above -1/2
(including all of [-1/2, 0)) is scaled by 32767; the result always fits a
signed 16-bit integer, written little-endian by `i16le`. -/
theorem C4_quantizer_behaviour (s : ℚ) :
    (max (-1) (min 1 s) < -(1/2) →
      Wav.wavSample s = Wav.ratTrunc (max (-1) (min 1 s) * 32768)) ∧
    (-(1/2) ≤ max (-1) (min 1 s) →
      Wav.wavSample s = Wav.ratTrunc (max (-1) (min 1 s) * 32767)) ∧
    -1 ≤ max (-1) (min 1 s) ∧ max (-1) (min 1 s) ≤ 1 ∧
    -32768 ≤ Wav.wavSample s ∧ Wav.wavSample s ≤ 32767 := by
  have hlo : (-1 : ℚ) ≤ max (-1) (min 1 s) := le_max_left _ _
  have hhi : max (-1 : ℚ) (min 1 s) ≤ 1 := max_le (by norm_num) (min_le_left _ _)
  set c := max (-1 : ℚ) (min 1 s) with hc
  have hbody : Wav.wavSample s =
      Wav.ratTrunc (if 1/2 + c < 0 then c * 32768 else c * 32767) := rfl
  have hceil_bounds : ∀ x : ℚ, (-32768 : ℚ) ≤ x → x ≤ 32767 → x < 0 →
      -32768 ≤ ⌈x⌉ ∧ ⌈x⌉ ≤ 32767 := by
    intro x h1 h2 h3
    constructor
    · have : ((-32768 : ℤ) : ℚ) ≤ (⌈x⌉ : ℚ) := le_trans (by exact_mod_cast h1) (Int.le_ceil x)
      exact_mod_cast this
    · exact Int.ceil_le.mpr (by exact_mod_cast h2)
  have hfloor_bounds : ∀ x : ℚ, (-32768 : ℚ) ≤ x → x ≤ 32767 →
      -32768 ≤ ⌊x⌋ ∧ ⌊x⌋ ≤ 32767 := by
    intro x h1 h2
    constructor
    · exact Int.le_floor.mpr (by exact_mod_cast h1)
    · have : (⌊x⌋ : ℚ) ≤ ((32767 : ℤ) : ℚ) := le_trans (Int.floor_le x) (by exact_mod_cast h2)
      exact_mod_cast this
  refine ⟨?_, ?_, hlo, hhi, ?_⟩
  · intro h
    rw [hbody, if_pos (by linarith)]
  · intro h
    rw [hbody, if_neg (by linarith)]
  · rw [hbody]
    by_cases hsplit : 1/2 + c < 0
    · rw [if_pos hsplit]
      have hx1 : (-32768 : ℚ) ≤ c * 32768 := by nlinarith
      have hx2 : c * 32768 ≤ 32767 := by nlinarith
      have hx3 : c * 32768 < 0 := by nlinarith
      rw [Wav.ratTrunc, if_pos hx3]
      exact hceil_bounds _ hx1 hx2 hx3
    · rw [if_neg hsplit]
      have hx1 : (-32768 : ℚ) ≤ c * 32767 := by nlinarith
      have hx2 : c * 32767 ≤ 32767 := by nlinarith
      rw [Wav.ratTrunc]
      by_cases hneg : c * 32767 < 0
      · rw [if_pos hneg]
        exact hceil_bounds _ hx1 hx2 hneg
      · rw [if_neg hneg]
        exact hfloor_bounds _ hx1 hx2

/-- Witness for C4 amended: at sample -1/4 the clamped value is -1/4,
which is at least -1/2, so the 32767 scale applies. -/
theorem C4_quantizer_behaviour_witness :
    Wav.wavSample (-(1/4)) = Wav.ratTrunc (max (-1) (min 1 (-(1/4))) * 32767) ∧
    -32768 ≤ Wav.wavSample (-(1/4)) := by
  have h := C4_quantizer_behaviour (-(1/4))
  exact ⟨h.2.1 (by norm_num), h.2.2.2.2.1⟩

namespace Wav

lemma length_i16le (v : Int) : (i16le v).length = 2 := by
  simp [i16le, u16le]

lemma length_wavData (channels : List (List ℚ)) (n : ℕ) :
    ((List.range n).flatMap
      (fun pos => channels.flatMap (fun ch => i16le (wavSample (ch.getD pos 0))))).length
      = n * (channels.length * 2) := by
  have hinner : ∀ pos : ℕ,
      (channels.flatMap fun ch => i16le (wavSample (ch.getD pos 0))).length
        = channels.length * 2 := by
    intro pos
    induction channels with
    | nil => simp
    | cons ch chs ih =>
      rw [List.flatMap_cons, List.length_append, ih, length_i16le, List.length_cons]
      ring
  have hgen : ∀ ps : List ℕ,
      (ps.flatMap
        (fun pos => channels.flatMap (fun ch => i16le (wavSample (ch.getD pos 0))))).length
        = ps.length * (channels.length * 2) := by
    intro ps
    induction ps with
    | nil => simp
    | cons p ps ih =>
      rw [List.flatMap_cons, List.length_append, ih, hinner p, List.length_cons]
      ring
  rw [hgen, List.length_range]

end Wav

/-- C5: for a buffer with `n` samples per channel and `c` channels (all
channel arrays the length of channel 0, the field values in range), the
WAV output is exactly `44 + n * c * 2` bytes, and its 44-byte header
carries PCM format code 1 at offset 20, the channel count at 22, the
sample rate at 24, byte rate `sampleRate * c * 2` at 28, block align
`c * 2` at 32, bits-per-sample 16 at 34, and the declared data-chunk
length `n * c * 2` at 40. -/
theorem C5_wav_header_layout (channels : List (List ℚ)) (sampleRate : ℕ)
    (hch : ∀ ch ∈ channels, ch.length = Wav.numSamples channels)
    (hc : channels.length * 2 < 65536)
    (hr : sampleRate < 4294967296)
    (hbr : sampleRate * 2 * channels.length < 4294967296)
    (hdl : Wav.numSamples channels * channels.length * 2 < 4294967296) :
    (Wav.bufferToWav channels sampleRate).length
      = 44 + Wav.numSamples channels * channels.length * 2 ∧
    Wav.readU16 (Wav.bufferToWav channels sampleRate) 20 = 1 ∧
    Wav.readU16 (Wav.bufferToWav channels sampleRate) 22 = channels.length ∧
    Wav.readU32 (Wav.bufferToWav channels sampleRate) 24 = sampleRate ∧
    Wav.readU32 (Wav.bufferToWav channels sampleRate) 28
      = sampleRate * channels.length * 2 ∧
    Wav.readU16 (Wav.bufferToWav channels sampleRate) 32 = channels.length * 2 ∧
    Wav.readU16 (Wav.bufferToWav channels sampleRate) 34 = 16 ∧
    Wav.readU32 (Wav.bufferToWav channels sampleRate) 40
      = Wav.numSamples channels * channels.length * 2 := by
  refine ⟨?_, ?_, ?_, ?_, ?_, ?_, ?_, ?_⟩
  · have hd := Wav.length_wavData channels (Wav.numSamples channels)
    simp only [Wav.bufferToWav, Wav.u32le, Wav.u16le, List.length_append,
      List.length_cons, List.length_nil]
    rw [hd]
    ring
  · simp [Wav.bufferToWav, Wav.u32le, Wav.u16le, Wav.readU16,
      List.getD_cons_succ, List.getD_cons_zero]
  · simp [Wav.bufferToWav, Wav.u32le, Wav.u16le, Wav.readU16,
      List.getD_cons_succ, List.getD_cons_zero]
    omega
  · simp [Wav.bufferToWav, Wav.u32le, Wav.u16le, Wav.readU32,
      List.getD_cons_succ, List.getD_cons_zero]
    omega
  · rw [show sampleRate * channels.length * 2 = sampleRate * 2 * channels.length
        from by ring]
    simp [Wav.bufferToWav, Wav.u32le, Wav.u16le, Wav.readU32,
      List.getD_cons_succ, List.getD_cons_zero]
    omega
  · simp [Wav.bufferToWav, Wav.u32le, Wav.u16le, Wav.readU16,
      List.getD_cons_succ, List.getD_cons_zero]
    omega
  · simp [Wav.bufferToWav, Wav.u32le, Wav.u16le, Wav.readU16,
      List.getD_cons_succ, List.getD_cons_zero]
  · simp [Wav.bufferToWav, Wav.u32le, Wav.u16le, Wav.readU32,
      List.getD_cons_succ, List.getD_cons_zero]
    omega

/-- Witness for C5: one channel of two samples at 8000 Hz gives a
48-byte file whose byte-rate field reads 16000. -/
theorem C5_wav_header_layout_witness :
    (Wav.bufferToWav [[1/2, -3/4]] 8000).length = 48 ∧
    Wav.readU32 (Wav.bufferToWav [[1/2, -3/4]] 8000) 28 = 16000 := by
  have h := C5_wav_header_layout [[1/2, -3/4]] 8000 (by decide) (by decide)
    (by decide) (by decide) (by decide)
  refine ⟨?_, ?_⟩
  · rw [h.1]
    rfl
  · rw [h.2.2.2.2.1]
    rfl
